import Mathlib

/-!
Shallow embedding of the SEP-41 fungible-token contract
(`src/soroban-hello-world/contracts/sep41/src/lib.rs`).

Modelling conventions:
- `Address` is modelled as `Nat` (opaque identities with decidable equality).
- `i128` values are modelled as `Int` together with explicit range checks
  `I128_MIN ≤ n ≤ I128_MAX` at every arithmetic operation the Rust source
  performs.  Soroban contracts are compiled with `overflow-checks = true`,
  so an out-of-range result aborts the invocation as an unstructured wasm
  trap (`TokenErr.trapOverflow`), never as `ContractError::OverflowError`.
- The host environment is `HostEnv`: the current ledger sequence number and
  the host's authorization verdict `auth : Address → Bool` for the current
  invocation (`require_auth` succeeds exactly when `auth` returns `true`).
- Contract storage is `TokenState`: balances as a total function
  (`read_balance` defaults an absent key to `0`, so absence and `0`
  coincide), allowances keyed by `(owner, spender)` with `none` for an
  absent record, plus the instance-scoped admin and metadata entries.
- Every fallible operation returns `Except TokenErr TokenState`.  A Rust
  `panic!` or host trap aborts the invocation with no committed writes,
  which the embedding renders as `.error` carrying no state: the
  pre-state is what persists.  The unstructured panic sites of the source
  are each given a named `TokenErr` constructor; the structured
  `ContractError` enum of the source is embedded verbatim and is
  constructible in `TokenErr` so that claims about it are statable.
- Event emission has no effect on storage and is not modelled.
-/

abbrev Address := Nat

/-- The numeral for i128 MIN, -(2^127). -/
def I128_MIN : Int := -170141183460469231731687303715884105728

/-- The numeral for i128 MAX, 2^127 - 1. -/
def I128_MAX : Int := 170141183460469231731687303715884105727

/-- The structured error enum declared by the source (discriminants 1, 3,
4, 8, 10, 12).  The contract declares it but never raises any of its
variants: all failures in the source are unstructured panics or traps. -/
inductive ContractError where
  | InternalError
  | AlreadyInitializedError
  | UnauthorizedError
  | NegativeAmountError
  | BalanceError
  | OverflowError
deriving DecidableEq, Repr

/-- How an invocation of the embedded contract can abort.  Each `panic*`
constructor names one `panic!` site of the source; `unwrapNone` is a
failed `Option::unwrap` on missing instance storage; `hostUnauthorized`
is the host aborting `require_auth`; `trapOverflow` is the
overflow-checks trap on `i128` arithmetic. -/
inductive TokenErr where
  | contractError (c : ContractError)
  | panicAlreadyInitialized
  | panicNegativeAmount
  | panicInsufficientAllowance
  | panicInsufficientBalance
  | unwrapNone
  | hostUnauthorized
  | trapOverflow
deriving DecidableEq, Repr

structure AllowanceValue where
  amount : Int
  expiration_ledger : Nat
deriving DecidableEq, Repr

structure TokenMetadata where
  decimal : Nat
  name : String
  symbol : String
deriving DecidableEq, Repr

/-- Contract storage: persistent balance and allowance entries, and the
instance-scoped admin and metadata. -/
structure TokenState where
  balances : Address → Int
  allowances : Address × Address → Option AllowanceValue
  admin : Option Address
  metadata : Option TokenMetadata

/-- The host environment for one invocation: current ledger sequence and
the host's authorization verdict for each principal. -/
structure HostEnv where
  sequence : Nat
  auth : Address → Bool

/-- Rust `i128` arithmetic under `overflow-checks = true`: an in-range
result is returned, an out-of-range result traps. -/
def i128chk (n : Int) : Except TokenErr Int :=
  if I128_MIN ≤ n ∧ n ≤ I128_MAX then .ok n else .error .trapOverflow

/-- Source `check_nonnegative_amount`: aborts (`panic!("negative amount")`) when
`amount < 0`. -/
def check_nonnegative_amount (amount : Int) : Except TokenErr Unit :=
  if amount < 0 then .error .panicNegativeAmount else .ok ()

/-- Source `Address::require_auth`, delegated to the host. -/
def require_auth (e : HostEnv) (a : Address) : Except TokenErr Unit :=
  if e.auth a then .ok () else .error .hostUnauthorized

/-- Source `read_balance`: `get(&key).unwrap_or(0)`. -/
def read_balance (s : TokenState) (addr : Address) : Int :=
  s.balances addr

/-- Source `receive_balance`: writes `read_balance + amount` (the `i128`
addition of the source, which traps on overflow). -/
def receive_balance (s : TokenState) (addr : Address) (amount : Int) :
    Except TokenErr TokenState :=
  match i128chk (read_balance s addr + amount) with
  | .error err => .error err
  | .ok n => .ok { s with balances := Function.update s.balances addr n }

/-- Source `spend_balance`: aborts (`panic!("insufficient balance")`) when
`balance < amount`, else writes `balance - amount`. -/
def spend_balance (s : TokenState) (addr : Address) (amount : Int) :
    Except TokenErr TokenState :=
  if read_balance s addr < amount then .error .panicInsufficientBalance
  else
    match i128chk (read_balance s addr - amount) with
    | .error err => .error err
    | .ok n => .ok { s with balances := Function.update s.balances addr n }

/-- Source `write_allowance`: wholesale overwrite of the `(from, spender)`
record. -/
def write_allowance (s : TokenState) (from_ spender : Address)
    (amount : Int) (expiration_ledger : Nat) : TokenState :=
  { s with
    allowances := Function.update s.allowances (from_, spender)
      (some { amount := amount, expiration_ledger := expiration_ledger }) }

/-- Source `read_allowance`: an absent record reads as amount 0 with expiration 0; a record whose
`expiration_ledger` is strictly below the current sequence reads as
amount `0` with its stored expiration; otherwise the record is returned
as stored.  Storage is never mutated by this read. -/
def read_allowance (s : TokenState) (e : HostEnv) (from_ spender : Address) :
    AllowanceValue :=
  match s.allowances (from_, spender) with
  | some allowance =>
    if allowance.expiration_ledger < e.sequence then
      { amount := 0, expiration_ledger := allowance.expiration_ledger }
    else allowance
  | none => { amount := 0, expiration_ledger := 0 }

/-- Source `spend_allowance`: aborts (`panic!("insufficient allowance")`) when the
effective allowance is below `amount`, else writes
`{effective - amount, effective expiration}`. -/
def spend_allowance (s : TokenState) (e : HostEnv) (from_ spender : Address)
    (amount : Int) : Except TokenErr TokenState :=
  let allowance := read_allowance s e from_ spender
  if allowance.amount < amount then .error .panicInsufficientAllowance
  else
    match i128chk (allowance.amount - amount) with
    | .error err => .error err
    | .ok n => .ok (write_allowance s from_ spender n allowance.expiration_ledger)

namespace Token

/-- Source `__constructor`: panics `"already initialized"` when an admin is
stored; otherwise stores the admin and the metadata record. -/
def constructor (s : TokenState) (admin : Address) (decimal : Nat)
    (name symbol : String) : Except TokenErr TokenState :=
  if s.admin.isSome then .error .panicAlreadyInitialized
  else
    .ok { s with
          admin := some admin
          metadata := some { decimal := decimal, name := name, symbol := symbol } }

/-- Source `allowance`: the effective allowance amount; a pure read. -/
def allowance (s : TokenState) (e : HostEnv) (from_ spender : Address) : Int :=
  (read_allowance s e from_ spender).amount

/-- Source `approve`: gate on `from`, require `amount ≥ 0`, overwrite the
allowance record. -/
def approve (s : TokenState) (e : HostEnv) (from_ spender : Address)
    (amount : Int) (expiration_ledger : Nat) : Except TokenErr TokenState :=
  match require_auth e from_ with
  | .error err => .error err
  | .ok _ =>
    match check_nonnegative_amount amount with
    | .error err => .error err
    | .ok _ => .ok (write_allowance s from_ spender amount expiration_ledger)

/-- Source `balance`: a pure read. -/
def balance (s : TokenState) (id : Address) : Int :=
  read_balance s id

/-- Source `transfer`: gate on `from`, require `amount ≥ 0`, debit `from`,
credit `to`. -/
def transfer (s : TokenState) (e : HostEnv) (from_ to_ : Address)
    (amount : Int) : Except TokenErr TokenState :=
  match require_auth e from_ with
  | .error err => .error err
  | .ok _ =>
    match check_nonnegative_amount amount with
    | .error err => .error err
    | .ok _ =>
      match spend_balance s from_ amount with
      | .error err => .error err
      | .ok s1 => receive_balance s1 to_ amount

/-- Source `transfer_from`: gate on `spender`, require `amount ≥ 0`, spend the
allowance, debit `from`, credit `to`. -/
def transfer_from (s : TokenState) (e : HostEnv) (spender from_ to_ : Address)
    (amount : Int) : Except TokenErr TokenState :=
  match require_auth e spender with
  | .error err => .error err
  | .ok _ =>
    match check_nonnegative_amount amount with
    | .error err => .error err
    | .ok _ =>
      match spend_allowance s e from_ spender amount with
      | .error err => .error err
      | .ok s1 =>
        match spend_balance s1 from_ amount with
        | .error err => .error err
        | .ok s2 => receive_balance s2 to_ amount

/-- Source `burn`: gate on `from`, require `amount ≥ 0`, debit `from`. -/
def burn (s : TokenState) (e : HostEnv) (from_ : Address) (amount : Int) :
    Except TokenErr TokenState :=
  match require_auth e from_ with
  | .error err => .error err
  | .ok _ =>
    match check_nonnegative_amount amount with
    | .error err => .error err
    | .ok _ => spend_balance s from_ amount

/-- Source `burn_from`: gate on `spender`, require `amount ≥ 0`, spend the
allowance, debit `from`. -/
def burn_from (s : TokenState) (e : HostEnv) (spender from_ : Address)
    (amount : Int) : Except TokenErr TokenState :=
  match require_auth e spender with
  | .error err => .error err
  | .ok _ =>
    match check_nonnegative_amount amount with
    | .error err => .error err
    | .ok _ =>
      match spend_allowance s e from_ spender amount with
      | .error err => .error err
      | .ok s1 => spend_balance s1 from_ amount

/-- Source `decimals`: `unwrap` on the metadata record. -/
def decimals (s : TokenState) : Except TokenErr Nat :=
  match s.metadata with
  | none => .error .unwrapNone
  | some m => .ok m.decimal

/-- Source `name`: `unwrap` on the metadata record. -/
def name (s : TokenState) : Except TokenErr String :=
  match s.metadata with
  | none => .error .unwrapNone
  | some m => .ok m.name

/-- Source `symbol`: `unwrap` on the metadata record. -/
def symbol (s : TokenState) : Except TokenErr String :=
  match s.metadata with
  | none => .error .unwrapNone
  | some m => .ok m.symbol

/-- Source `mint`: `unwrap` the stored admin, gate on it, require `amount ≥ 0`,
credit `to`. -/
def mint (s : TokenState) (e : HostEnv) (to_ : Address) (amount : Int) :
    Except TokenErr TokenState :=
  match s.admin with
  | none => .error .unwrapNone
  | some admin =>
    match require_auth e admin with
    | .error err => .error err
    | .ok _ =>
      match check_nonnegative_amount amount with
      | .error err => .error err
      | .ok _ => receive_balance s to_ amount

/-- Source `set_admin`: `unwrap` the stored admin, gate on it, overwrite the
admin entry. -/
def set_admin (s : TokenState) (e : HostEnv) (new_admin : Address) :
    Except TokenErr TokenState :=
  match s.admin with
  | none => .error .unwrapNone
  | some admin =>
    match require_auth e admin with
    | .error err => .error err
    | .ok _ => .ok { s with admin := some new_admin }

/-- Source `admin`: `unwrap` the stored admin. -/
def admin (s : TokenState) : Except TokenErr Address :=
  match s.admin with
  | none => .error .unwrapNone
  | some a => .ok a

end Token

/-- One public mutating operation together with its arguments. -/
inductive Op where
  | construct (admin : Address) (decimal : Nat) (name symbol : String)
  | approve (from_ spender : Address) (amount : Int) (expiration_ledger : Nat)
  | transfer (from_ to_ : Address) (amount : Int)
  | transfer_from (spender from_ to_ : Address) (amount : Int)
  | burn (from_ : Address) (amount : Int)
  | burn_from (spender from_ : Address) (amount : Int)
  | mint (to_ : Address) (amount : Int)
  | set_admin (new_admin : Address)

/-- Dispatch of the mutating public operations (`allowance`, `balance`,
`decimals`, `name`, `symbol` and `admin` are pure reads and never write
storage). -/
def execOp (e : HostEnv) (op : Op) (s : TokenState) : Except TokenErr TokenState :=
  match op with
  | .construct a d n sy => Token.constructor s a d n sy
  | .approve f sp amt exp => Token.approve s e f sp amt exp
  | .transfer f t amt => Token.transfer s e f t amt
  | .transfer_from sp f t amt => Token.transfer_from s e sp f t amt
  | .burn f amt => Token.burn s e f amt
  | .burn_from sp f amt => Token.burn_from s e sp f amt
  | .mint t amt => Token.mint s e t amt
  | .set_admin a => Token.set_admin s e a

/-- Fresh contract storage: nothing stored (every balance reads `0`). -/
def initialState : TokenState :=
  { balances := fun _ => 0
    allowances := fun _ => none
    admin := none
    metadata := none }

/-- States reachable from fresh storage by successful public invocations,
each under its own host environment. -/
inductive Reachable : TokenState → Prop where
  | init : Reachable initialState
  | step {s s' : TokenState} {e : HostEnv} {op : Op} :
      Reachable s → execOp e op s = .ok s' → Reachable s'

/-! ### Inversion and evaluation lemmas for the storage helpers -/

theorem i128chk_ok {n m : Int} (h : i128chk n = .ok m) :
    m = n ∧ I128_MIN ≤ n ∧ n ≤ I128_MAX := by
  unfold i128chk at h
  split at h
  · cases h; exact ⟨rfl, by assumption⟩
  · cases h

theorem i128chk_ok_of_bounds {n : Int} (h1 : I128_MIN ≤ n) (h2 : n ≤ I128_MAX) :
    i128chk n = .ok n := by
  unfold i128chk
  rw [if_pos ⟨h1, h2⟩]

theorem check_nonnegative_amount_ok {amount : Int} {u : Unit}
    (h : check_nonnegative_amount amount = .ok u) : 0 ≤ amount := by
  unfold check_nonnegative_amount at h
  split at h
  · cases h
  · omega

theorem require_auth_ok {e : HostEnv} {a : Address} {u : Unit}
    (h : require_auth e a = .ok u) : e.auth a = true := by
  unfold require_auth at h
  split at h
  · assumption
  · cases h

theorem spend_balance_eq {s : TokenState} {addr : Address} {amount : Int}
    (h0 : 0 ≤ amount) (h1 : amount ≤ read_balance s addr)
    (h2 : read_balance s addr ≤ I128_MAX) :
    spend_balance s addr amount =
      .ok { s with balances :=
              Function.update s.balances addr (read_balance s addr - amount) } := by
  unfold spend_balance
  rw [if_neg (not_lt.2 h1),
      i128chk_ok_of_bounds (by unfold I128_MIN; omega) (by unfold I128_MAX at *; omega)]

theorem receive_balance_eq {s : TokenState} {addr : Address} {amount : Int}
    (h1 : I128_MIN ≤ read_balance s addr + amount)
    (h2 : read_balance s addr + amount ≤ I128_MAX) :
    receive_balance s addr amount =
      .ok { s with balances :=
              Function.update s.balances addr (read_balance s addr + amount) } := by
  unfold receive_balance
  rw [i128chk_ok_of_bounds h1 h2]

theorem spend_balance_ok_inv {s s' : TokenState} {addr : Address} {amount : Int}
    (h : spend_balance s addr amount = .ok s') :
    amount ≤ read_balance s addr ∧
      s' = { s with balances :=
               Function.update s.balances addr (read_balance s addr - amount) } := by
  unfold spend_balance at h
  split at h
  · cases h
  · rename_i hle
    split at h
    · cases h
    · rename_i n heq
      obtain ⟨hn, _, _⟩ := i128chk_ok heq
      subst hn
      cases h
      exact ⟨not_lt.1 hle, rfl⟩

theorem receive_balance_ok_inv {s s' : TokenState} {addr : Address} {amount : Int}
    (h : receive_balance s addr amount = .ok s') :
    s' = { s with balances :=
             Function.update s.balances addr (read_balance s addr + amount) } := by
  unfold receive_balance at h
  split at h
  · cases h
  · cases h
    rename_i heq
    obtain ⟨hn, _, _⟩ := i128chk_ok heq
    subst hn
    rfl

theorem spend_allowance_ok_inv {s s' : TokenState} {e : HostEnv}
    {from_ spender : Address} {amount : Int}
    (h : spend_allowance s e from_ spender amount = .ok s') :
    amount ≤ (read_allowance s e from_ spender).amount ∧
      s' = write_allowance s from_ spender
             ((read_allowance s e from_ spender).amount - amount)
             (read_allowance s e from_ spender).expiration_ledger := by
  simp only [spend_allowance] at h
  split at h
  · cases h
  · rename_i hle
    split at h
    · cases h
    · rename_i n heq
      obtain ⟨hn, _, _⟩ := i128chk_ok heq
      subst hn
      cases h
      exact ⟨not_lt.1 hle, rfl⟩

theorem write_allowance_balances (s : TokenState) (from_ spender : Address)
    (amount : Int) (exp : Nat) :
    (write_allowance s from_ spender amount exp).balances = s.balances := rfl

theorem spend_allowance_fail {s : TokenState} {e : HostEnv}
    {from_ spender : Address} {amount : Int}
    (h : (read_allowance s e from_ spender).amount < amount) :
    spend_allowance s e from_ spender amount = .error .panicInsufficientAllowance := by
  simp only [spend_allowance]
  rw [if_pos h]

theorem spend_balance_fail {s : TokenState} {addr : Address} {amount : Int}
    (h : read_balance s addr < amount) :
    spend_balance s addr amount = .error .panicInsufficientBalance := by
  unfold spend_balance
  rw [if_pos h]

/-! ### Non-negativity invariant (C2) -/

/-- Every stored balance and every stored allowance amount is
non-negative. -/
def NonnegState (s : TokenState) : Prop :=
  (∀ a, 0 ≤ s.balances a) ∧
  (∀ k v, s.allowances k = some v → 0 ≤ v.amount)

theorem read_allowance_nonneg {s : TokenState} (e : HostEnv)
    (from_ spender : Address)
    (hs : ∀ k v, s.allowances k = some v → 0 ≤ v.amount) :
    0 ≤ (read_allowance s e from_ spender).amount := by
  unfold read_allowance
  split
  · rename_i v hv
    split
    · simp
    · exact hs _ _ hv
  · simp

theorem spend_balance_preserves {s s' : TokenState} {addr : Address} {amount : Int}
    (h : spend_balance s addr amount = .ok s') (hs : NonnegState s) :
    NonnegState s' := by
  obtain ⟨hle, hs'⟩ := spend_balance_ok_inv h
  subst hs'
  refine ⟨fun a => ?_, hs.2⟩
  by_cases ha : a = addr
  · subst ha
    simp only [Function.update_same]
    omega
  · simpa only [Function.update_noteq ha] using hs.1 a

theorem receive_balance_preserves {s s' : TokenState} {addr : Address} {amount : Int}
    (h : receive_balance s addr amount = .ok s') (hs : NonnegState s)
    (h0 : 0 ≤ amount) : NonnegState s' := by
  have hs' := receive_balance_ok_inv h
  subst hs'
  refine ⟨fun a => ?_, hs.2⟩
  by_cases ha : a = addr
  · subst ha
    simp only [Function.update_same]
    have hb := hs.1 a
    show (0 : Int) ≤ s.balances a + amount
    omega
  · simpa only [Function.update_noteq ha] using hs.1 a

theorem write_allowance_preserves {s : TokenState} {from_ spender : Address}
    {amount : Int} {exp : Nat} (hs : NonnegState s) (h0 : 0 ≤ amount) :
    NonnegState (write_allowance s from_ spender amount exp) := by
  refine ⟨hs.1, fun k v hv => ?_⟩
  simp only [write_allowance] at hv
  by_cases hk : k = (from_, spender)
  · subst hk
    simp only [Function.update_same] at hv
    cases hv
    exact h0
  · rw [Function.update_noteq hk] at hv
    exact hs.2 k v hv

theorem spend_allowance_preserves {s s' : TokenState} {e : HostEnv}
    {from_ spender : Address} {amount : Int}
    (h : spend_allowance s e from_ spender amount = .ok s') (hs : NonnegState s) :
    NonnegState s' := by
  obtain ⟨hle, hs'⟩ := spend_allowance_ok_inv h
  subst hs'
  exact write_allowance_preserves hs (by omega)

/-- Every successful mutating invocation preserves the non-negativity
invariant. -/
theorem execOp_preserves_nonneg {e : HostEnv} {op : Op} {s s' : TokenState}
    (h : execOp e op s = .ok s') (hs : NonnegState s) : NonnegState s' := by
  cases op with
  | construct a d n sy =>
    simp only [execOp] at h
    unfold Token.constructor at h
    split at h
    · cases h
    · cases h
      exact hs
  | approve f sp amt exp =>
    simp only [execOp] at h
    unfold Token.approve at h
    split at h
    · cases h
    · split at h
      · cases h
      · rename_i u hchk
        cases h
        exact write_allowance_preserves hs (check_nonnegative_amount_ok hchk)
  | transfer f t amt =>
    simp only [execOp] at h
    unfold Token.transfer at h
    split at h
    · cases h
    · split at h
      · cases h
      · rename_i u hchk
        split at h
        · cases h
        · rename_i s1 hsp
          exact receive_balance_preserves h
            (spend_balance_preserves hsp hs) (check_nonnegative_amount_ok hchk)
  | transfer_from sp f t amt =>
    simp only [execOp] at h
    unfold Token.transfer_from at h
    split at h
    · cases h
    · split at h
      · cases h
      · rename_i u hchk
        split at h
        · cases h
        · rename_i s1 hal
          split at h
          · cases h
          · rename_i s2 hsp
            exact receive_balance_preserves h
              (spend_balance_preserves hsp (spend_allowance_preserves hal hs))
              (check_nonnegative_amount_ok hchk)
  | burn f amt =>
    simp only [execOp] at h
    unfold Token.burn at h
    split at h
    · cases h
    · split at h
      · cases h
      · exact spend_balance_preserves h hs
  | burn_from sp f amt =>
    simp only [execOp] at h
    unfold Token.burn_from at h
    split at h
    · cases h
    · split at h
      · cases h
      · split at h
        · cases h
        · rename_i s1 hal
          exact spend_balance_preserves h (spend_allowance_preserves hal hs)
  | mint t amt =>
    simp only [execOp] at h
    unfold Token.mint at h
    split at h
    · cases h
    · split at h
      · cases h
      · split at h
        · cases h
        · rename_i u hchk
          exact receive_balance_preserves h hs (check_nonnegative_amount_ok hchk)
  | set_admin a =>
    simp only [execOp] at h
    unfold Token.set_admin at h
    split at h
    · cases h
    · split at h
      · cases h
      · cases h
        exact hs

theorem initialState_nonneg : NonnegState initialState := by
  constructor
  · intro a
    simp [initialState]
  · intro k v hv
    simp [initialState] at hv

/-- C2: in every state reachable from a fresh contract via any sequence
of successful public operations, every stored balance and every stored
allowance amount is non-negative. -/
theorem C2_reachable_nonneg (s : TokenState) (h : Reachable s) :
    NonnegState s := by
  induction h with
  | init => exact initialState_nonneg
  | step _ hexec ih => exact execOp_preserves_nonneg hexec ih

/-- An all-authorizing host environment at ledger sequence 0. -/
def eAll : HostEnv := { sequence := 0, auth := fun _ => true }

/-- The state after `__constructor(7, 2, "TOK", "TOK")` on fresh storage. -/
def sConstructed : TokenState :=
  { initialState with
    admin := some 7
    metadata := some { decimal := 2, name := "TOK", symbol := "TOK" } }

/-- The state after the admin then mints 100 units to address 1. -/
def sMinted : TokenState :=
  { sConstructed with
    balances := Function.update sConstructed.balances 1
      (read_balance sConstructed 1 + 100) }

theorem sMinted_reachable : Reachable sMinted := by
  have h1 : execOp eAll (Op.construct 7 2 "TOK" "TOK") initialState =
      .ok sConstructed := rfl
  have h2 : execOp eAll (Op.mint 1 100) sConstructed = .ok sMinted := rfl
  exact Reachable.step (Reachable.step Reachable.init h1) h2

theorem C2_witness : NonnegState sMinted :=
  C2_reachable_nonneg sMinted sMinted_reachable

/-! ### Evaluation lemmas for the gates -/

theorem require_auth_eq_ok {e : HostEnv} {a : Address} (h : e.auth a = true) :
    require_auth e a = .ok () := by
  unfold require_auth
  rw [h]
  rfl

theorem require_auth_eq_fail {e : HostEnv} {a : Address} (h : e.auth a = false) :
    require_auth e a = .error .hostUnauthorized := by
  unfold require_auth
  rw [h]
  rfl

theorem check_nonnegative_eq_ok {amount : Int} (h : 0 ≤ amount) :
    check_nonnegative_amount amount = .ok () := by
  unfold check_nonnegative_amount
  rw [if_neg (not_lt.2 h)]

theorem check_nonnegative_eq_fail {amount : Int} (h : amount < 0) :
    check_nonnegative_amount amount = .error .panicNegativeAmount := by
  unfold check_nonnegative_amount
  rw [if_pos h]

/-! ### C4: the allowance query -/

/-- C4: for every `(owner, spender)` and current ledger sequence, the
`allowance` query returns the stored amount while `sequence ≤`
expiration marker, returns `0` once `sequence >` the marker, and returns
`0` when no record exists.  The query is embedded as a pure function of
the state (`read_allowance` returns a value, not a state), which is how
the source behaves: storage is never mutated on expiry. -/
theorem C4_allowance_query (s : TokenState) (e : HostEnv) (o sp : Address) :
    (s.allowances (o, sp) = none → Token.allowance s e o sp = 0) ∧
    (∀ v, s.allowances (o, sp) = some v →
      (e.sequence ≤ v.expiration_ledger → Token.allowance s e o sp = v.amount) ∧
      (v.expiration_ledger < e.sequence → Token.allowance s e o sp = 0)) := by
  unfold Token.allowance read_allowance
  refine ⟨fun hnone => ?_, fun v hv => ⟨fun hle => ?_, fun hlt => ?_⟩⟩
  · rw [hnone]
  · rw [hv]
    simp only [Nat.not_lt.2 hle, if_false]
  · rw [hv]
    simp only [hlt, if_true]

/-- A state holding one allowance record `{amount 7, expiration 10}` for
`(owner 1, spender 2)`. -/
def sC4w : TokenState :=
  { initialState with
    allowances := Function.update initialState.allowances (1, 2)
      (some { amount := 7, expiration_ledger := 10 }) }

/-- An all-authorizing host environment at ledger sequence 10. -/
def eSeq10 : HostEnv := { sequence := 10, auth := fun _ => true }

theorem C4_witness : Token.allowance sC4w eSeq10 1 2 = 7 :=
  ((C4_allowance_query sC4w eSeq10 1 2).2
    { amount := 7, expiration_ledger := 10 } (by decide)).1 (by decide)

/-! ### C6: the constructor -/

/-- C6: the constructor succeeds exactly when no admin is stored, and
then stores the given admin and metadata; when an admin is present it
aborts (the `panic!("already initialized")` of the source, the
already-initialized failure of the spec) and, aborting, commits no
write; consequently construction succeeds at most once per instance. -/
theorem C6_constructor_once (s : TokenState) (a : Address) (d : Nat)
    (n sy : String) :
    (s.admin = none →
      Token.constructor s a d n sy =
        .ok { s with admin := some a,
                     metadata := some { decimal := d, name := n, symbol := sy } }) ∧
    (∀ ad, s.admin = some ad →
      Token.constructor s a d n sy = .error .panicAlreadyInitialized) ∧
    (∀ s' (a2 : Address) (d2 : Nat) (n2 sy2 : String),
      Token.constructor s a d n sy = .ok s' →
      Token.constructor s' a2 d2 n2 sy2 = .error .panicAlreadyInitialized) := by
  unfold Token.constructor
  refine ⟨fun hnone => ?_, fun ad had => ?_, fun s' a2 d2 n2 sy2 h => ?_⟩
  · rw [hnone]
    rfl
  · rw [had]
    rfl
  · split at h
    · cases h
    · cases h
      rfl

theorem C6_witness :
    Token.constructor initialState 7 2 "TOK" "TOK" = .ok sConstructed :=
  (C6_constructor_once initialState 7 2 "TOK" "TOK").1 rfl

/-! ### C7: negative amounts -/

/-- C7: each of the six amount-taking mutating operations, invoked with
`amount < 0` by its authorized principal, aborts with the
negative-amount failure (the `panic!("negative amount")` of
`check_nonnegative_amount`) and, aborting, commits no write.  The
authorization hypotheses reflect the source's gate-before-validation
order: an unauthorized call aborts at the gate instead. -/
theorem C7_negative_amount (s : TokenState) (e : HostEnv) (amount : Int)
    (hneg : amount < 0) :
    (∀ f t, e.auth f = true →
      Token.transfer s e f t amount = .error .panicNegativeAmount) ∧
    (∀ sp f t, e.auth sp = true →
      Token.transfer_from s e sp f t amount = .error .panicNegativeAmount) ∧
    (∀ f, e.auth f = true →
      Token.burn s e f amount = .error .panicNegativeAmount) ∧
    (∀ sp f, e.auth sp = true →
      Token.burn_from s e sp f amount = .error .panicNegativeAmount) ∧
    (∀ t ad, s.admin = some ad → e.auth ad = true →
      Token.mint s e t amount = .error .panicNegativeAmount) ∧
    (∀ f sp exp, e.auth f = true →
      Token.approve s e f sp amount exp = .error .panicNegativeAmount) := by
  refine ⟨?_, ?_, ?_, ?_, ?_, ?_⟩
  · intro f t hf
    unfold Token.transfer
    rw [require_auth_eq_ok hf, check_nonnegative_eq_fail hneg]
  · intro sp f t hsp
    unfold Token.transfer_from
    rw [require_auth_eq_ok hsp, check_nonnegative_eq_fail hneg]
  · intro f hf
    unfold Token.burn
    rw [require_auth_eq_ok hf, check_nonnegative_eq_fail hneg]
  · intro sp f hsp
    unfold Token.burn_from
    rw [require_auth_eq_ok hsp, check_nonnegative_eq_fail hneg]
  · intro t ad had hauth
    simp only [Token.mint, had, require_auth_eq_ok hauth,
      check_nonnegative_eq_fail hneg]
  · intro f sp exp hf
    unfold Token.approve
    rw [require_auth_eq_ok hf, check_nonnegative_eq_fail hneg]

theorem C7_witness :
    Token.transfer sMinted eAll 1 2 (-1) = .error .panicNegativeAmount :=
  (C7_negative_amount sMinted eAll (-1) (by decide)).1 1 2 rfl

/-! ### C8: debits -/

theorem spend_allowance_eq {s : TokenState} {e : HostEnv}
    {from_ spender : Address} {amount : Int}
    (h0 : 0 ≤ amount) (h1 : amount ≤ (read_allowance s e from_ spender).amount)
    (h2 : (read_allowance s e from_ spender).amount ≤ I128_MAX) :
    spend_allowance s e from_ spender amount =
      .ok (write_allowance s from_ spender
            ((read_allowance s e from_ spender).amount - amount)
            (read_allowance s e from_ spender).expiration_ledger) := by
  simp only [spend_allowance]
  rw [if_neg (not_lt.2 h1),
    i128chk_ok_of_bounds (by unfold I128_MIN; omega) (by unfold I128_MAX at h2 ⊢; omega)]

theorem read_balance_write_allowance (s : TokenState) (from_ spender : Address)
    (amount : Int) (exp : Nat) (a : Address) :
    read_balance (write_allowance s from_ spender amount exp) a =
      read_balance s a := rfl

/-- C8: a debit of `amount` from `addr` fails with the
insufficient-balance failure (the `panic!("insufficient balance")` of
`spend_balance`, the spec's `BalanceError` condition) whenever
`amount > read(addr)`, committing no write; otherwise it writes
`read(addr) - amount`.  The same failure surfaces through `transfer`,
`burn`, `transfer_from` and `burn_from` (the latter two after a
sufficient allowance is spent).  The `I128_MAX` hypotheses record that
stored `i128` balances and allowance amounts are representable. -/
theorem C8_debit (s : TokenState) (addr : Address) (amount : Int) :
    (read_balance s addr < amount →
      spend_balance s addr amount = .error .panicInsufficientBalance) ∧
    (0 ≤ amount → amount ≤ read_balance s addr → read_balance s addr ≤ I128_MAX →
      spend_balance s addr amount =
        .ok { s with balances :=
                Function.update s.balances addr (read_balance s addr - amount) }) ∧
    (∀ (e : HostEnv) (t : Address), e.auth addr = true → 0 ≤ amount →
      read_balance s addr < amount →
      Token.transfer s e addr t amount = .error .panicInsufficientBalance ∧
      Token.burn s e addr amount = .error .panicInsufficientBalance) ∧
    (∀ (e : HostEnv) (sp t : Address), e.auth sp = true → 0 ≤ amount →
      amount ≤ (read_allowance s e addr sp).amount →
      (read_allowance s e addr sp).amount ≤ I128_MAX →
      read_balance s addr < amount →
      Token.transfer_from s e sp addr t amount = .error .panicInsufficientBalance ∧
      Token.burn_from s e sp addr amount = .error .panicInsufficientBalance) := by
  refine ⟨fun hlt => spend_balance_fail hlt,
          fun h0 h1 h2 => spend_balance_eq h0 h1 h2, ?_, ?_⟩
  · intro e t hauth h0 hlt
    constructor
    · unfold Token.transfer
      rw [require_auth_eq_ok hauth, check_nonnegative_eq_ok h0,
        spend_balance_fail hlt]
    · unfold Token.burn
      rw [require_auth_eq_ok hauth, check_nonnegative_eq_ok h0,
        spend_balance_fail hlt]
  · intro e sp t hauth h0 hle hmax hlt
    have hfail : spend_balance
        (write_allowance s addr sp ((read_allowance s e addr sp).amount - amount)
          (read_allowance s e addr sp).expiration_ledger) addr amount =
        .error .panicInsufficientBalance := by
      apply spend_balance_fail
      rw [read_balance_write_allowance]
      exact hlt
    constructor
    · unfold Token.transfer_from
      rw [require_auth_eq_ok hauth, check_nonnegative_eq_ok h0,
        spend_allowance_eq h0 hle hmax]
      dsimp only
      rw [hfail]
    · unfold Token.burn_from
      rw [require_auth_eq_ok hauth, check_nonnegative_eq_ok h0,
        spend_allowance_eq h0 hle hmax]
      dsimp only
      rw [hfail]

theorem C8_witness :
    spend_balance sMinted 1 40 =
      .ok { sMinted with balances :=
              Function.update sMinted.balances 1 (read_balance sMinted 1 - 40) } :=
  (C8_debit sMinted 1 40).2.1 (by decide) (by decide) (by decide)

/-! ### C1 and C10: transfer arithmetic -/

/-- The post-state of a successful `transfer(from, to, amount)`: the
balances map after debiting `from_` and then crediting `to_` (the credit
reads the balance the debit left behind, which matters when
`from_ = to_`). -/
def transferPost (s : TokenState) (from_ to_ : Address) (amount : Int) :
    TokenState :=
  { s with balances :=
      (Function.update
        (Function.update s.balances from_ (read_balance s from_ - amount)) to_
        (Function.update s.balances from_ (read_balance s from_ - amount) to_
          + amount)) }

theorem transfer_eq_post (s : TokenState) (e : HostEnv)
    (from_ to_ : Address) (amount : Int)
    (hauth : e.auth from_ = true) (h0 : 0 ≤ amount)
    (h1 : amount ≤ read_balance s from_)
    (hfmax : read_balance s from_ ≤ I128_MAX)
    (hrecv : I128_MIN ≤
        Function.update s.balances from_ (read_balance s from_ - amount) to_
          + amount)
    (hrecv2 : Function.update s.balances from_ (read_balance s from_ - amount) to_
          + amount ≤ I128_MAX) :
    Token.transfer s e from_ to_ amount = .ok (transferPost s from_ to_ amount) := by
  unfold Token.transfer
  rw [require_auth_eq_ok hauth, check_nonnegative_eq_ok h0,
    spend_balance_eq h0 h1 hfmax]
  dsimp only
  rw [receive_balance_eq hrecv hrecv2]
  rfl

/-- C1 (amended): a `transfer(from, to, amount)` between distinct
addresses, invoked with `from`'s authorization in a state of
`i128`-representable balances with `balance(from) ≥ amount ≥ 0` and
`balance(to) + amount ≤ I128_MAX` (otherwise the unchecked `i128`
addition of `receive_balance` traps), succeeds; `balance(from)` drops by
`amount`, `balance(to)` grows by `amount`, every other balance is
untouched, their pair sum is invariant, and the sum of balances over any
finite address set containing both endpoints is invariant. -/
theorem C1_transfer_conservation (s : TokenState) (e : HostEnv)
    (from_ to_ : Address) (amount : Int)
    (hauth : e.auth from_ = true) (hne : from_ ≠ to_)
    (h0 : 0 ≤ amount) (h1 : amount ≤ read_balance s from_)
    (hfmax : read_balance s from_ ≤ I128_MAX)
    (htmin : I128_MIN ≤ read_balance s to_)
    (htmax : read_balance s to_ + amount ≤ I128_MAX) :
    Token.transfer s e from_ to_ amount = .ok (transferPost s from_ to_ amount) ∧
    read_balance (transferPost s from_ to_ amount) from_ =
      read_balance s from_ - amount ∧
    read_balance (transferPost s from_ to_ amount) to_ =
      read_balance s to_ + amount ∧
    (∀ a, a ≠ from_ → a ≠ to_ →
      read_balance (transferPost s from_ to_ amount) a = read_balance s a) ∧
    read_balance (transferPost s from_ to_ amount) from_ +
        read_balance (transferPost s from_ to_ amount) to_ =
      read_balance s from_ + read_balance s to_ ∧
    (∀ S : Finset Address, from_ ∈ S → to_ ∈ S →
      (∑ a in S, read_balance (transferPost s from_ to_ amount) a) =
        ∑ a in S, read_balance s a) := by
  have hu1 : Function.update s.balances from_ (read_balance s from_ - amount) to_
      = read_balance s to_ := Function.update_noteq (Ne.symm hne) _ _
  have hfrom : read_balance (transferPost s from_ to_ amount) from_ =
      read_balance s from_ - amount := by
    show Function.update _ to_ _ from_ = _
    rw [Function.update_noteq hne, Function.update_same]
  have hto : read_balance (transferPost s from_ to_ amount) to_ =
      read_balance s to_ + amount := by
    show Function.update _ to_ _ to_ = _
    rw [Function.update_same, hu1]
  have hother : ∀ a, a ≠ from_ → a ≠ to_ →
      read_balance (transferPost s from_ to_ amount) a = read_balance s a := by
    intro a haf hat
    show Function.update _ to_ _ a = _
    rw [Function.update_noteq hat, Function.update_noteq haf]
    rfl
  refine ⟨?_, hfrom, hto, hother, ?_, ?_⟩
  · exact transfer_eq_post s e from_ to_ amount hauth h0 h1 hfmax
      (by rw [hu1]; unfold I128_MIN at htmin ⊢; omega)
      (by rw [hu1]; exact htmax)
  · rw [hfrom, hto]
    ring
  · intro S hfS htS
    have hsub : ({from_, to_} : Finset Address) ⊆ S := by
      intro x hx
      simp only [Finset.mem_insert, Finset.mem_singleton] at hx
      rcases hx with rfl | rfl
      · exact hfS
      · exact htS
    have hzero : ∀ x ∈ S, x ∉ ({from_, to_} : Finset Address) →
        read_balance (transferPost s from_ to_ amount) x - read_balance s x = 0 := by
      intro x _ hx
      simp only [Finset.mem_insert, Finset.mem_singleton, not_or] at hx
      rw [hother x hx.1 hx.2, sub_self]
    have hpair : (∑ a in S,
        (read_balance (transferPost s from_ to_ amount) a - read_balance s a)) = 0 := by
      rw [← Finset.sum_subset hsub hzero, Finset.sum_pair hne, hfrom, hto]
      ring
    have hdist := Finset.sum_sub_distrib (s := S)
      (f := fun a => read_balance (transferPost s from_ to_ amount) a)
      (g := fun a => read_balance s a)
    rw [hdist] at hpair
    omega

theorem C1_witness :
    Token.transfer sMinted eAll 1 2 30 = .ok (transferPost sMinted 1 2 30) ∧
    read_balance (transferPost sMinted 1 2 30) 1 = 70 ∧
    read_balance (transferPost sMinted 1 2 30) 2 = 30 := by
  obtain ⟨hok, hfrom, hto, -⟩ :=
    C1_transfer_conservation sMinted eAll 1 2 30 rfl (by decide) (by decide)
      (by decide) (by decide) (by decide) (by decide)
  refine ⟨hok, ?_, ?_⟩
  · rw [hfrom]; decide
  · rw [hto]; decide

/-- The balance of `a` after a successful invocation; `none` if the
invocation aborted. -/
def balAfter (r : Except TokenErr TokenState) (a : Address) : Option Int :=
  match r with
  | .ok s => some (read_balance s a)
  | .error _ => none

/-- A state holding a single balance of `5` at address `0`. -/
def sFive : TokenState :=
  { initialState with balances := Function.update initialState.balances 0 5 }

/-- C1 counterexample: `transfer(0, 0, 3)` (a self-transfer, which the
claim's universal quantification over `(from, to)` includes) succeeds on
a balance of `5` and leaves the balance at `5`, not `5 - 3`: the claim's
"balance(from) decreases by amt" fails at `from = to`. -/
theorem C1_cex :
    balAfter (Token.transfer sFive eAll 0 0 3) 0 = some 5 ∧
    ¬ balAfter (Token.transfer sFive eAll 0 0 3) 0 = some (5 - 3) := by
  constructor
  · decide
  · decide

/-- C10: a self-transfer `transfer(from, from, amount)` with
`0 ≤ amount ≤ balance(from)`, invoked with `from`'s authorization,
succeeds and leaves every balance exactly unchanged (the credit reads
the debited balance and adds the amount back). -/
theorem C10_self_transfer (s : TokenState) (e : HostEnv) (from_ : Address)
    (amount : Int) (hauth : e.auth from_ = true) (h0 : 0 ≤ amount)
    (h1 : amount ≤ read_balance s from_)
    (hmax : read_balance s from_ ≤ I128_MAX) :
    Token.transfer s e from_ from_ amount =
      .ok (transferPost s from_ from_ amount) ∧
    ∀ a, read_balance (transferPost s from_ from_ amount) a = read_balance s a := by
  have hu1 : Function.update s.balances from_ (read_balance s from_ - amount) from_
      = read_balance s from_ - amount := Function.update_same _ _ _
  constructor
  · exact transfer_eq_post s e from_ from_ amount hauth h0 h1 hmax
      (by rw [hu1]; unfold I128_MIN; omega)
      (by rw [hu1]; unfold I128_MAX at hmax ⊢; omega)
  · intro a
    by_cases ha : a = from_
    · subst ha
      show Function.update _ a _ a = _
      rw [Function.update_same, hu1]
      unfold read_balance
      ring
    · show Function.update _ from_ _ a = _
      rw [Function.update_noteq ha, Function.update_noteq ha]
      rfl

theorem C10_witness :
    Token.transfer sMinted eAll 1 1 100 = .ok (transferPost sMinted 1 1 100) ∧
    read_balance (transferPost sMinted 1 1 100) 1 = read_balance sMinted 1 := by
  obtain ⟨hok, hall⟩ :=
    C10_self_transfer sMinted eAll 1 100 rfl (by decide) (by decide) (by decide)
  exact ⟨hok, hall 1⟩

/-! ### C3: spending allowances -/

/-- C3 (amended): with the spender authorized and `amount ≥ 0`,
`transfer_from` and `burn_from` fail with the insufficient-allowance
failure (the `panic!("insufficient allowance")` of `spend_allowance`)
whenever `amount` exceeds the effective (expiry-aware) allowance, and on
success the stored record becomes `{effective - amount, effective
expiration}` — which equals `{stored - amount, stored expiration}`
whenever the record is unexpired, but resets an expired record's stored
amount to `0 - amount + amount budget`, i.e. to `-amount + effective`,
not to `stored - amount`.  The effective read always preserves the
stored expiration marker. -/
theorem C3_spend_allowance (s : TokenState) (e : HostEnv)
    (spender from_ to_ : Address) (amount : Int)
    (hauth : e.auth spender = true) (h0 : 0 ≤ amount) :
    ((read_allowance s e from_ spender).amount < amount →
      Token.transfer_from s e spender from_ to_ amount =
        .error .panicInsufficientAllowance ∧
      Token.burn_from s e spender from_ amount =
        .error .panicInsufficientAllowance) ∧
    (∀ s', Token.transfer_from s e spender from_ to_ amount = .ok s' →
      s'.allowances (from_, spender) =
        some { amount := (read_allowance s e from_ spender).amount - amount,
               expiration_ledger :=
                 (read_allowance s e from_ spender).expiration_ledger }) ∧
    (∀ s', Token.burn_from s e spender from_ amount = .ok s' →
      s'.allowances (from_, spender) =
        some { amount := (read_allowance s e from_ spender).amount - amount,
               expiration_ledger :=
                 (read_allowance s e from_ spender).expiration_ledger }) ∧
    (∀ v, s.allowances (from_, spender) = some v →
      (read_allowance s e from_ spender).expiration_ledger =
        v.expiration_ledger) := by
  refine ⟨fun hlt => ?_, fun s' h => ?_, fun s' h => ?_, fun v hv => ?_⟩
  · constructor
    · unfold Token.transfer_from
      rw [require_auth_eq_ok hauth, check_nonnegative_eq_ok h0,
        spend_allowance_fail hlt]
    · unfold Token.burn_from
      rw [require_auth_eq_ok hauth, check_nonnegative_eq_ok h0,
        spend_allowance_fail hlt]
  · unfold Token.transfer_from at h
    rw [require_auth_eq_ok hauth, check_nonnegative_eq_ok h0] at h
    dsimp only at h
    split at h
    · cases h
    · rename_i s1 hal
      obtain ⟨-, hs1⟩ := spend_allowance_ok_inv hal
      subst hs1
      split at h
      · cases h
      · rename_i s2 hsp
        obtain ⟨-, hs2⟩ := spend_balance_ok_inv hsp
        subst hs2
        have hs' := receive_balance_ok_inv h
        subst hs'
        show Function.update s.allowances (from_, spender) _ (from_, spender) = _
        rw [Function.update_same]
  · unfold Token.burn_from at h
    rw [require_auth_eq_ok hauth, check_nonnegative_eq_ok h0] at h
    dsimp only at h
    split at h
    · cases h
    · rename_i s1 hal
      obtain ⟨-, hs1⟩ := spend_allowance_ok_inv hal
      subst hs1
      obtain ⟨-, hs'⟩ := spend_balance_ok_inv h
      subst hs'
      show Function.update s.allowances (from_, spender) _ (from_, spender) = _
      rw [Function.update_same]
  · unfold read_allowance
    rw [hv]
    split
    · rename_i al hal
      injection hal with hal
      subst hal
      split <;> rfl
    · rename_i hal
      cases hal

/-- The spec §8 scenario state: `balance(1) = 100`, allowance
`(owner 1, spender 2) = {40, expiration 1000}`, admin `0`. -/
def sScenario : TokenState :=
  { initialState with
    balances := Function.update initialState.balances 1 100
    allowances := Function.update initialState.allowances (1, 2)
      (some { amount := 40, expiration_ledger := 1000 })
    admin := some 0 }

/-- An all-authorizing host environment at ledger sequence 1500. -/
def eSeq1500 : HostEnv := { sequence := 1500, auth := fun _ => true }

theorem C3_witness :
    Token.transfer_from sScenario eSeq1500 2 1 3 5 =
      .error .panicInsufficientAllowance :=
  ((C3_spend_allowance sScenario eSeq1500 2 1 3 5 rfl (by decide)).1
    (by decide)).1

/-- The stored allowance record of `(owner, spender)` after a successful
invocation; `none` if the invocation aborted. -/
def allowAfter (r : Except TokenErr TokenState) (k : Address × Address) :
    Option (Option AllowanceValue) :=
  match r with
  | .ok s => some (s.allowances k)
  | .error _ => none

/-- A state holding one expired-by-sequence-10 allowance record
`{amount 10, expiration 5}` for `(owner 1, spender 2)`. -/
def sExpired : TokenState :=
  { initialState with
    allowances := Function.update initialState.allowances (1, 2)
      (some { amount := 10, expiration_ledger := 5 }) }

/-- C3 counterexample: at sequence 10 the record `{10, 5}` is expired
(effective allowance `0`), so `transfer_from(spender 2, from 1, to 3, 0)`
succeeds and overwrites the stored amount with `0 - 0 = 0`: the new
stored amount is `0`, not `old stored - amount = 10 - 0 = 10`.  The
claim's "new stored amount = old stored amount - amt" is false. -/
theorem C3_cex :
    allowAfter (Token.transfer_from sExpired eSeq10 2 1 3 0) (1, 2) =
      some (some { amount := 0, expiration_ledger := 5 }) ∧
    ¬ allowAfter (Token.transfer_from sExpired eSeq10 2 1 3 0) (1, 2) =
        some (some { amount := 10 - 0, expiration_ledger := 5 }) := by
  constructor
  · decide
  · decide

/-! ### C9: admin handover -/

/-- C9: after a successful `set_admin(new_admin)`, the stored admin is
`new_admin` and the very next invocation gates on it: under any host
environment that does not authorize `new_admin` — in particular one that
still authorizes only the previous admin — `mint` and `set_admin` abort
at the gate; under one that authorizes `new_admin`, `set_admin` succeeds
and `mint` succeeds whenever its amount is valid and the credited
balance stays representable. -/
theorem C9_set_admin (s s' : TokenState) (e : HostEnv) (new_admin : Address)
    (h : Token.set_admin s e new_admin = .ok s') :
    s'.admin = some new_admin ∧
    (∀ e2 : HostEnv, e2.auth new_admin = false →
      (∀ t amt, Token.mint s' e2 t amt = .error .hostUnauthorized) ∧
      (∀ a2, Token.set_admin s' e2 a2 = .error .hostUnauthorized)) ∧
    (∀ e2 : HostEnv, e2.auth new_admin = true →
      (∀ a2, Token.set_admin s' e2 a2 = .ok { s' with admin := some a2 }) ∧
      (∀ t amt, 0 ≤ amt → I128_MIN ≤ read_balance s' t + amt →
        read_balance s' t + amt ≤ I128_MAX →
        Token.mint s' e2 t amt =
          .ok { s' with balances :=
                  Function.update s'.balances t (read_balance s' t + amt) })) := by
  unfold Token.set_admin at h
  split at h
  · cases h
  · rename_i ad had
    split at h
    · cases h
    · cases h
      refine ⟨rfl, ?_, ?_⟩
      · intro e2 hfalse
        constructor
        · intro t amt
          unfold Token.mint
          dsimp only
          rw [require_auth_eq_fail hfalse]
        · intro a2
          unfold Token.set_admin
          dsimp only
          rw [require_auth_eq_fail hfalse]
      · intro e2 htrue
        constructor
        · intro a2
          unfold Token.set_admin
          dsimp only
          rw [require_auth_eq_ok htrue]
        · intro t amt h0 hmin hmax
          unfold Token.mint
          dsimp only
          rw [require_auth_eq_ok htrue, check_nonnegative_eq_ok h0]
          dsimp only
          rw [receive_balance_eq hmin hmax]

/-- The scenario state after `set_admin(9)`. -/
def sAfterSet : TokenState := { sScenario with admin := some 9 }

/-- A host environment authorizing only address `0` (the previous
admin). -/
def eOnly0 : HostEnv := { sequence := 0, auth := fun a => a == 0 }

theorem C9_witness :
    Token.set_admin sScenario eAll 9 = .ok sAfterSet ∧
    sAfterSet.admin = some 9 ∧
    Token.mint sAfterSet eOnly0 1 5 = .error .hostUnauthorized := by
  obtain ⟨h1, h2, -⟩ := C9_set_admin sScenario sAfterSet eAll 9 rfl
  exact ⟨rfl, h1, (h2 eOnly0 rfl).1 1 5⟩

/-! ### C5: overflow on credit -/

/-- Holds (`true`) iff the abort is one of the unstructured panics or traps the
source actually raises — i.e. not a structured `ContractError`. -/
def plainErr : TokenErr → Bool
  | .contractError _ => false
  | _ => true

theorem i128chk_err_plain {n : Int} {err : TokenErr}
    (h : i128chk n = .error err) : plainErr err = true := by
  unfold i128chk at h
  split at h
  · cases h
  · cases h
    rfl

theorem require_auth_err_plain {e : HostEnv} {a : Address} {err : TokenErr}
    (h : require_auth e a = .error err) : plainErr err = true := by
  unfold require_auth at h
  split at h
  · cases h
  · cases h
    rfl

theorem check_nonnegative_err_plain {amount : Int} {err : TokenErr}
    (h : check_nonnegative_amount amount = .error err) : plainErr err = true := by
  unfold check_nonnegative_amount at h
  split at h
  · cases h
    rfl
  · cases h

theorem receive_balance_err_plain {s : TokenState} {addr : Address}
    {amount : Int} {err : TokenErr}
    (h : receive_balance s addr amount = .error err) : plainErr err = true := by
  unfold receive_balance at h
  split at h
  · rename_i e2 heq
    cases h
    exact i128chk_err_plain heq
  · cases h

theorem spend_balance_err_plain {s : TokenState} {addr : Address}
    {amount : Int} {err : TokenErr}
    (h : spend_balance s addr amount = .error err) : plainErr err = true := by
  unfold spend_balance at h
  split at h
  · cases h
    rfl
  · split at h
    · rename_i e2 heq
      cases h
      exact i128chk_err_plain heq
    · cases h

theorem spend_allowance_err_plain {s : TokenState} {e : HostEnv}
    {from_ spender : Address} {amount : Int} {err : TokenErr}
    (h : spend_allowance s e from_ spender amount = .error err) :
    plainErr err = true := by
  simp only [spend_allowance] at h
  split at h
  · cases h
    rfl
  · split at h
    · rename_i e2 heq
      cases h
      exact i128chk_err_plain heq
    · cases h

/-- Every abort of a mutating public operation is one of the source's
unstructured panics or traps; the structured `ContractError` enum is
never involved. -/
theorem execOp_err_plain {e : HostEnv} {op : Op} {s : TokenState}
    {err : TokenErr} (h : execOp e op s = .error err) : plainErr err = true := by
  cases op with
  | construct a d n sy =>
    simp only [execOp] at h
    unfold Token.constructor at h
    split at h
    · cases h
      rfl
    · cases h
  | approve f sp amt exp =>
    simp only [execOp] at h
    unfold Token.approve at h
    split at h
    · rename_i e2 heq
      cases h
      exact require_auth_err_plain heq
    · split at h
      · rename_i e2 heq
        cases h
        exact check_nonnegative_err_plain heq
      · cases h
  | transfer f t amt =>
    simp only [execOp] at h
    unfold Token.transfer at h
    split at h
    · rename_i e2 heq
      cases h
      exact require_auth_err_plain heq
    · split at h
      · rename_i e2 heq
        cases h
        exact check_nonnegative_err_plain heq
      · split at h
        · rename_i e2 heq
          cases h
          exact spend_balance_err_plain heq
        · exact receive_balance_err_plain h
  | transfer_from sp f t amt =>
    simp only [execOp] at h
    unfold Token.transfer_from at h
    split at h
    · rename_i e2 heq
      cases h
      exact require_auth_err_plain heq
    · split at h
      · rename_i e2 heq
        cases h
        exact check_nonnegative_err_plain heq
      · split at h
        · rename_i e2 heq
          cases h
          exact spend_allowance_err_plain heq
        · split at h
          · rename_i e2 heq
            cases h
            exact spend_balance_err_plain heq
          · exact receive_balance_err_plain h
  | burn f amt =>
    simp only [execOp] at h
    unfold Token.burn at h
    split at h
    · rename_i e2 heq
      cases h
      exact require_auth_err_plain heq
    · split at h
      · rename_i e2 heq
        cases h
        exact check_nonnegative_err_plain heq
      · exact spend_balance_err_plain h
  | burn_from sp f amt =>
    simp only [execOp] at h
    unfold Token.burn_from at h
    split at h
    · rename_i e2 heq
      cases h
      exact require_auth_err_plain heq
    · split at h
      · rename_i e2 heq
        cases h
        exact check_nonnegative_err_plain heq
      · split at h
        · rename_i e2 heq
          cases h
          exact spend_allowance_err_plain heq
        · exact spend_balance_err_plain h
  | mint t amt =>
    simp only [execOp] at h
    unfold Token.mint at h
    split at h
    · cases h
      rfl
    · split at h
      · rename_i e2 heq
        cases h
        exact require_auth_err_plain heq
      · split at h
        · rename_i e2 heq
          cases h
          exact check_nonnegative_err_plain heq
        · exact receive_balance_err_plain h
  | set_admin a =>
    simp only [execOp] at h
    unfold Token.set_admin at h
    split at h
    · cases h
      rfl
    · split at h
      · rename_i e2 heq
        cases h
        exact require_auth_err_plain heq
      · cases h

/-- Holds (`true`) iff the invocation aborted with the structured
`ContractError::OverflowError`. -/
def overflowErrRaised : Except TokenErr TokenState → Bool
  | .error (.contractError .OverflowError) => true
  | _ => false

/-- A state with `balance(1) = i128::MAX` and admin `0` (reachable: mint
`i128::MAX` to address 1). -/
def sMaxed : TokenState :=
  { initialState with
    balances := Function.update initialState.balances 1 I128_MAX
    admin := some 0 }

/-- C5: the credit in `receive_balance` is an unchecked `i128` addition
and no code path of the contract constructs `ContractError::OverflowError`
(the variant is declared in the error enum and never raised).  At
`balance(to) = i128::MAX`, `mint(to, 1)` aborts with the arithmetic
overflow trap, not with `OverflowError`; and no mutating operation, in
any state under any host environment, ever aborts with `OverflowError`. -/
theorem C5_overflow_unstructured :
    Token.mint sMaxed eAll 1 1 = .error .trapOverflow ∧
    ∀ (e : HostEnv) (op : Op) (s : TokenState),
      overflowErrRaised (execOp e op s) = false := by
  constructor
  · rfl
  · intro e op s
    cases hr : execOp e op s with
    | ok s' => rfl
    | error err =>
      have hp := execOp_err_plain hr
      cases err with
      | contractError c => exact Bool.noConfusion hp
      | panicAlreadyInitialized => rfl
      | panicNegativeAmount => rfl
      | panicInsufficientAllowance => rfl
      | panicInsufficientBalance => rfl
      | unwrapNone => rfl
      | hostUnauthorized => rfl
      | trapOverflow => rfl
